import Mathlib

/-!
Verification of the bh-infra-api repository core (src/index.js,
src/ingest_sqlite.js and the unnamed sqlite-server / ingestion variants).

Modelling conventions:
* JavaScript strings are Lean `String`s; a JS value that may be
  `undefined`/`null` is an `Option String` (or `Option _` generally),
  with `none` standing for `undefined`/`null`.
* Coordinates are exact rationals `ℚ`.  The source computes Euclidean
  distances with `Math.hypot`; since every use of a distance in the
  source is an order comparison or an equality, we carry the *squared*
  distance (a rational) everywhere: `Math.hypot dx dy = sqrt (dx*dx + dy*dy)`
  and `sqrt` is strictly monotone on nonnegatives, so `<`, `>`, `=` and
  `min` of the source's distances coincide with those of our squared
  distances.  The threshold comparison `distance > 50` becomes
  `distanceSq > 2500`.
* `Infinity` is `⊤` in `WithTop ℚ`; the JS comparison semantics
  involving `undefined` (property access on a number) are modelled
  explicitly (`jsLt`, `jsGtConst` return `false` when an operand is
  `undefined`, exactly as a JS `<`/`>` involving `undefined` is false).
-/

namespace BhInfra

/-- JS `String(raw || "")`: `null`/`undefined` (and the empty string)
collapse to `""`; any other string is kept. -/
def jsToStr : Option String → String
  | none => ""
  | some s => s

/-- JS `s.trim()`: drop leading and trailing whitespace.  (Implemented on
the character list so that proofs can evaluate it; agrees with the JS
behaviour on the ASCII data the datasets contain.) -/
def strTrim (s : String) : String :=
  ⟨((s.data.dropWhile Char.isWhitespace).reverse.dropWhile Char.isWhitespace).reverse⟩

/-- JS `s.toUpperCase()`, character-wise upper-casing.  (ASCII-faithful;
the only letters the source compares against are "S" and "N".) -/
def strUpper (s : String) : String := ⟨s.data.map Char.toUpper⟩

/-- Function `normalizeKey` from src/ingest_sqlite.js: `String(key || "").trim()`. -/
def normalizeKey (key : Option String) : String := strTrim (jsToStr key)

/-- Function `mapIndicatorToDisponivel` from src/index.js lines 173-179 (the same
function appears verbatim in the sqlite server source):
`(value || "").toString().trim().toUpperCase()` then the S / N / empty /
fallback cascade.  "Sim" is the Available state, "Não" Unavailable,
"não informado" Unknown, "não encontrado" NotFound. -/
def mapIndicatorToDisponivel (value : Option String) : String :=
  let v := strUpper (strTrim (jsToStr value))
  if v = "S" then "Sim"
  else if v = "N" then "Não"
  else if v = "" then "não informado"
  else "não encontrado"

/-- C1 — counterexample.  The claim says the truthy token "SIM" maps to
Available ("Sim"); the code maps every token other than "S"/"N"/"" to
NotFound ("não encontrado"), so "SIM" is NotFound, not Available. -/
theorem mapIndicator_SIM_not_available :
    mapIndicatorToDisponivel (some "SIM") = "não encontrado" ∧
      "não encontrado" ≠ "Sim" := by
  constructor
  · decide
  · decide

/-- C1 (amended) — the indicator mapping recognises only the tokens "S"
(Available) and "N" (Unavailable) after trimming and upper-casing; the
empty string gives Unknown; every other string — including SIM, Y, 1,
TRUE, NAO, NÃO, 0, FALSE — gives NotFound; null/undefined input behaves
as the empty string.  The mapping is total: every input yields exactly
one of the four states. -/
theorem mapIndicator_total_characterisation (value : Option String) :
    (mapIndicatorToDisponivel value = "Sim" ↔ strUpper (strTrim (jsToStr value)) = "S") ∧
    (mapIndicatorToDisponivel value = "Não" ↔ strUpper (strTrim (jsToStr value)) = "N") ∧
    (mapIndicatorToDisponivel value = "não informado" ↔
      strUpper (strTrim (jsToStr value)) = "") ∧
    (mapIndicatorToDisponivel value = "não encontrado" ↔
      (strUpper (strTrim (jsToStr value)) ≠ "S" ∧ strUpper (strTrim (jsToStr value)) ≠ "N" ∧
        strUpper (strTrim (jsToStr value)) ≠ "")) ∧
    (mapIndicatorToDisponivel none = "não informado") := by
  unfold mapIndicatorToDisponivel
  dsimp only
  refine ⟨?_, ?_, ?_, ?_, by decide⟩ <;>
    (split_ifs with h1 h2 h3 <;> simp_all)

/-! ## Point-to-segment geometry (src/index.js lines 50-76; the same
function appears in the sqlite server source lines 524-544). -/

/-- A planar coordinate pair (the source works in EPSG:31983 metres). -/
abbrev Coord := ℚ × ℚ

/-- Result of `pointToSegmentDistance`: the source returns
`{ dist, cx, cy }` with `dist = Math.hypot dx dy`; we carry the squared
distance `dist2 = dx*dx + dy*dy` (see the header note). -/
structure SegDist where
  dist2 : ℚ
  cx : ℚ
  cy : ℚ
deriving DecidableEq

/-- Function `pointToSegmentDistance` from src/index.js lines 50-76: project P
onto the line through A=(x1,y1), B=(x2,y2), clamp the projection factor
t to [0,1], return the (squared) distance from P to the clamped point;
a degenerate segment (A = B) falls back to the distance to A. -/
def pointToSegmentDistance (px py x1 y1 x2 y2 : ℚ) : SegDist :=
  let apx := px - x1
  let apy := py - y1
  let abx := x2 - x1
  let aby := y2 - y1
  let ab2 := abx * abx + aby * aby
  if ab2 = 0 then
    -- segment is a single point
    { dist2 := (px - x1) * (px - x1) + (py - y1) * (py - y1), cx := x1, cy := y1 }
  else
    let t0 := (apx * abx + apy * aby) / ab2
    let t := if t0 < 0 then 0 else if 1 < t0 then 1 else t0
    let cx := x1 + t * abx
    let cy := y1 + t * aby
    { dist2 := (px - cx) * (px - cx) + (py - cy) * (py - cy), cx := cx, cy := cy }

/-- The unclamped projection factor `t` of line 65 of src/index.js
(meaningful when the segment is non-degenerate). -/
def tRawProj (px py x1 y1 x2 y2 : ℚ) : ℚ :=
  ((px - x1) * (x2 - x1) + (py - y1) * (y2 - y1)) /
    ((x2 - x1) * (x2 - x1) + (y2 - y1) * (y2 - y1))

/-- Squared Euclidean distance between two points. -/
def distSqPts (px py qx qy : ℚ) : ℚ := (px - qx) * (px - qx) + (py - qy) * (py - qy)

/-- P lies on the segment from A=(x1,y1) to B=(x2,y2). -/
def onSegment (px py x1 y1 x2 y2 : ℚ) : Prop :=
  ∃ t : ℚ, 0 ≤ t ∧ t ≤ 1 ∧ px = x1 + t * (x2 - x1) ∧ py = y1 + t * (y2 - y1)

/-- The clamp of lines 66-67 of src/index.js: `if (t < 0) t = 0; else if (t > 1) t = 1`. -/
def clamp01 (t : ℚ) : ℚ := if t < 0 then 0 else if 1 < t then 1 else t

theorem clamp01_mem (t : ℚ) : 0 ≤ clamp01 t ∧ clamp01 t ≤ 1 := by
  unfold clamp01
  split_ifs with h1 h2
  · exact ⟨le_refl 0, by norm_num⟩
  · exact ⟨by norm_num, le_refl 1⟩
  · exact ⟨le_of_not_lt h1, le_of_not_lt h2⟩

theorem clamp01_eq_self {t : ℚ} (h0 : 0 ≤ t) (h1 : t ≤ 1) : clamp01 t = t := by
  unfold clamp01
  split_ifs with hlt hgt
  · linarith
  · linarith
  · rfl

/-- Branch characterisation of `pointToSegmentDistance.dist2`: the
degenerate branch is the squared distance to A, the other branch the
squared distance from P to its clamped projection onto the segment. -/
theorem pointToSegmentDistance_dist2_eq (px py x1 y1 x2 y2 : ℚ) :
    (pointToSegmentDistance px py x1 y1 x2 y2).dist2 =
      if (x2 - x1) * (x2 - x1) + (y2 - y1) * (y2 - y1) = 0 then
        distSqPts px py x1 y1
      else
        distSqPts px py (x1 + clamp01 (tRawProj px py x1 y1 x2 y2) * (x2 - x1))
          (y1 + clamp01 (tRawProj px py x1 y1 x2 y2) * (y2 - y1)) := by
  unfold pointToSegmentDistance
  dsimp only
  rw [apply_ite SegDist.dist2]
  by_cases hab : (x2 - x1) * (x2 - x1) + (y2 - y1) * (y2 - y1) = 0
  · rw [if_pos hab, if_pos hab]
    unfold distSqPts
    rfl
  · rw [if_neg hab, if_neg hab]
    unfold clamp01 tRawProj distSqPts
    dsimp only

/-- C4 — the clamped-projection point-to-segment distance is 0 exactly
when the point lies on the segment, and when the unclamped projection
factor falls outside [0,1] (non-degenerate segment) it equals the
distance to the nearer endpoint.  Stated on squared distances: the
source's `Math.hypot` value is the square root, which is zero, equal,
or minimal exactly when the square is. -/
theorem pointToSegmentDistance_zero_iff_and_endpoint (px py x1 y1 x2 y2 : ℚ) :
    ((pointToSegmentDistance px py x1 y1 x2 y2).dist2 = 0 ↔
      onSegment px py x1 y1 x2 y2) ∧
    ((x2 - x1) * (x2 - x1) + (y2 - y1) * (y2 - y1) ≠ 0 →
      (tRawProj px py x1 y1 x2 y2 < 0 ∨ 1 < tRawProj px py x1 y1 x2 y2) →
      (pointToSegmentDistance px py x1 y1 x2 y2).dist2 =
        min (distSqPts px py x1 y1) (distSqPts px py x2 y2)) := by
  have hzero : ∀ a b qx qy : ℚ, distSqPts a b qx qy = 0 → a = qx ∧ b = qy := by
    intro a b qx qy h
    unfold distSqPts at h
    constructor <;> nlinarith [mul_self_nonneg (a - qx), mul_self_nonneg (b - qy)]
  rw [pointToSegmentDistance_dist2_eq]
  by_cases hab : (x2 - x1) * (x2 - x1) + (y2 - y1) * (y2 - y1) = 0
  · -- degenerate segment: A = B
    rw [if_pos hab]
    have hx2 : x2 = x1 := by nlinarith [mul_self_nonneg (x2 - x1), mul_self_nonneg (y2 - y1)]
    have hy2 : y2 = y1 := by nlinarith [mul_self_nonneg (x2 - x1), mul_self_nonneg (y2 - y1)]
    refine ⟨?_, fun h => (h hab).elim⟩
    constructor
    · intro h
      obtain ⟨h1, h2⟩ := hzero _ _ _ _ h
      exact ⟨0, le_refl 0, by norm_num, by rw [hx2]; linarith, by rw [hy2]; linarith⟩
    · rintro ⟨t, -, -, hpx, hpy⟩
      rw [hx2] at hpx
      rw [hy2] at hpy
      have hpx1 : px = x1 := by rw [hpx]; ring
      have hpy1 : py = y1 := by rw [hpy]; ring
      unfold distSqPts
      rw [hpx1, hpy1]
      ring
  · -- non-degenerate segment
    rw [if_neg hab]
    have hab2pos : 0 < (x2 - x1) * (x2 - x1) + (y2 - y1) * (y2 - y1) :=
      lt_of_le_of_ne (add_nonneg (mul_self_nonneg _) (mul_self_nonneg _)) (Ne.symm hab)
    constructor
    · -- zero iff on-segment
      constructor
      · intro h
        obtain ⟨h1, h2⟩ := hzero _ _ _ _ h
        exact ⟨clamp01 (tRawProj px py x1 y1 x2 y2),
          (clamp01_mem _).1, (clamp01_mem _).2, h1, h2⟩
      · rintro ⟨s, hs0, hs1, hpx, hpy⟩
        have hts : tRawProj px py x1 y1 x2 y2 = s := by
          unfold tRawProj
          rw [hpx, hpy]
          field_simp
          ring
        rw [hts, clamp01_eq_self hs0 hs1]
        unfold distSqPts
        rw [hpx, hpy]
        ring
    · -- projection factor outside [0,1]: distance to the nearer endpoint
      intro _ hout
      rcases hout with hlt | hgt
      · -- t < 0: clamp to A, and A is the nearer endpoint
        have hcl : clamp01 (tRawProj px py x1 y1 x2 y2) = 0 := by
          unfold clamp01
          rw [if_pos hlt]
        have hdot : (px - x1) * (x2 - x1) + (py - y1) * (y2 - y1) < 0 := by
          by_contra hge
          push_neg at hge
          have : 0 ≤ tRawProj px py x1 y1 x2 y2 :=
            div_nonneg hge (le_of_lt hab2pos)
          linarith
        have hle : distSqPts px py x1 y1 ≤ distSqPts px py x2 y2 := by
          unfold distSqPts
          nlinarith
        rw [hcl, min_eq_left hle]
        unfold distSqPts
        ring
      · -- t > 1: clamp to B, and B is the nearer endpoint
        have hnlt : ¬ tRawProj px py x1 y1 x2 y2 < 0 := by linarith
        have hcl : clamp01 (tRawProj px py x1 y1 x2 y2) = 1 := by
          unfold clamp01
          rw [if_neg hnlt, if_pos hgt]
        have hdot : (x2 - x1) * (x2 - x1) + (y2 - y1) * (y2 - y1) <
            (px - x1) * (x2 - x1) + (py - y1) * (y2 - y1) := by
          have := (lt_div_iff₀ hab2pos).mp hgt
          linarith
        have hle : distSqPts px py x2 y2 ≤ distSqPts px py x1 y1 := by
          unfold distSqPts
          nlinarith
        rw [hcl, min_eq_right hle]
        unfold distSqPts
        ring

/-- C4 — witness: for P=(0,0) and the segment from (1,0) to (3,0) the
unclamped projection factor is negative, and the computed squared
distance equals the squared distance to the nearer endpoint (1,0). -/
theorem pointToSegmentDistance_witness :
    (pointToSegmentDistance 0 0 1 0 3 0).dist2 =
      min (distSqPts 0 0 1 0) (distSqPts 0 0 3 0) :=
  (pointToSegmentDistance_zero_iff_and_endpoint 0 0 1 0 3 0).2 (by norm_num)
    (by left; unfold tRawProj; norm_num)

/-! ## Parsed geometries and point-to-geometry distances.

A CSV row's `GEOMETRIA` WKT string is parsed by the external
`wktToGeoJSON` collaborator; we model the parse *result*: `none` for a
blank/unparsable WKT or a result without a `coordinates` array, `some g`
otherwise.  Coordinate entries inside a parsed geometry may themselves
be invalid (the source filters with
`Array.isArray(c) && c.length >= 2 && Number.isFinite ...`); an invalid
entry is `none`. -/

/-- A parsed GeoJSON geometry that has a `coordinates` array.  `other`
covers any type other than LineString/MultiLineString (for instance a
POINT, whose `coordinates` exist but which neither distance function
handles). -/
inductive Geometry
  | lineString (coords : List (Option Coord))
  | multiLineString (parts : List (List (Option Coord)))
  | other
deriving DecidableEq

/-- The per-coordinate validity filter of src/index.js lines 106-112 /
sqlite server line 568: keep the entries that are arrays of at least two
finite numbers. -/
def filterValid (coords : List (Option Coord)) : List Coord := coords.filterMap id

/-- The loop of `pointToLineStringDistance` (src/index.js lines 79-94,
sqlite server lines 546-555): minimum over consecutive vertex pairs of
the point-to-segment distance, starting from `Infinity` (`⊤`); the
squared distance is carried (header note).  The index.js variant also
tracks the closest point, which nothing downstream reads. -/
def pointToLineStringDistance (pt : Coord) (line : List Coord) : WithTop ℚ :=
  (line.zip line.tail).foldl
    (fun minDist ab =>
      let d : WithTop ℚ :=
        ((pointToSegmentDistance pt.1 pt.2 ab.1.1 ab.1.2 ab.2.1 ab.2.2).dist2 : ℚ)
      if d < minDist then d else minDist) ⊤

/-- Function `computeGeometryMinDistance` from the sqlite server source lines
565-583: LineString → filtered polyline distance (Infinity when fewer
than 2 valid coordinates); MultiLineString → minimum over the parts,
skipping parts with fewer than 2 valid coordinates; anything else →
Infinity. -/
def computeGeometryMinDistance (pt : Coord) (geometry : Option Geometry) : WithTop ℚ :=
  match geometry with
  | none => ⊤
  | some (.lineString coords) =>
    let cs := filterValid coords
    if cs.length < 2 then ⊤ else pointToLineStringDistance pt cs
  | some (.multiLineString parts) =>
    parts.foldl
      (fun best ls =>
        let cs := filterValid ls
        if cs.length < 2 then best
        else
          let d := pointToLineStringDistance pt cs
          if d < best then d else best) ⊤
  | some .other => ⊤

/-- The value `pointToGeometryMinDistanceMeters` (src/index.js lines
97-130) actually produces: the number `Infinity` on every failure path,
but the *object* `{ distance, closestPoint }` on the success path.  Later
code reads `.distance` from it; on the number `Infinity` that property
access yields `undefined`. -/
inductive DistVal
  | infNum
  | obj (distanceSq : WithTop ℚ)
deriving DecidableEq

/-- JS property access `v.distance` on a `DistVal`: `undefined` (`none`)
when `v` is the number `Infinity`. -/
def DistVal.distanceProp : DistVal → Option (WithTop ℚ)
  | .infNum => none
  | .obj d => some d

/-- The numeric distance a `DistVal` denotes (`Infinity` for the number
branch) — used to state what the code computed for a candidate. -/
def DistVal.distance : DistVal → WithTop ℚ
  | .infNum => ⊤
  | .obj d => d

/-- JS `a < b` when both sides may be `undefined`: any comparison
involving `undefined` is false. -/
def jsLt (a b : Option (WithTop ℚ)) : Bool :=
  match a, b with
  | some x, some y => decide (x < y)
  | _, _ => false

/-- JS `a > c` for a constant squared threshold `c`; false when `a` is
`undefined`. -/
def jsGtConst (a : Option (WithTop ℚ)) (c : ℚ) : Bool :=
  match a with
  | some x => decide ((c : WithTop ℚ) < x)
  | none => false

/-- Function `pointToGeometryMinDistanceMeters` from src/index.js lines 97-130:
only a LineString with more than one coordinate entry is handled; after
filtering, fewer than 2 valid coordinates give the number `Infinity`;
otherwise the `{ distance, closestPoint }` object of
`pointToLineStringDistance` is returned.  Every other geometry type
(including MultiLineString) gives the number `Infinity`. -/
def pointToGeometryMinDistanceMeters (pt : Coord) (geom : Option Geometry) : DistVal :=
  match geom with
  | none => .infNum
  | some (.lineString coords) =>
    if 1 < coords.length then
      let validCoordinates := filterValid coords
      if validCoordinates.length < 2 then .infNum
      else .obj (pointToLineStringDistance pt validCoordinates)
    else .infNum
  | some (.multiLineString _) => .infNum
  | some .other => .infNum

/-! ## C5: multi-part geometries. -/

/-- Helper: the accumulator step of the MultiLineString loop equals a
`min` with the single-part distance. -/
theorem multiLineString_foldl_eq_min (pt : Coord) (parts : List (List (Option Coord))) :
    ∀ b : WithTop ℚ,
      parts.foldl
        (fun best ls =>
          let cs := filterValid ls
          if cs.length < 2 then best
          else
            let d := pointToLineStringDistance pt cs
            if d < best then d else best) b =
      min b ((parts.map
        (fun ls => computeGeometryMinDistance pt (some (.lineString ls)))).foldr min ⊤) := by
  induction parts with
  | nil =>
    intro b
    simp [min_eq_left le_top]
  | cons x xs ih =>
    intro b
    simp only [List.foldl_cons, List.map_cons, List.foldr_cons]
    rw [ih]
    have hx :
        (let cs := filterValid x
         if cs.length < 2 then b
         else
           let d := pointToLineStringDistance pt cs
           if d < b then d else b) =
        min b (computeGeometryMinDistance pt (some (.lineString x))) := by
      show (if (filterValid x).length < 2 then b
            else if pointToLineStringDistance pt (filterValid x) < b then
              pointToLineStringDistance pt (filterValid x) else b) =
        min b (computeGeometryMinDistance pt (some (.lineString x)))
      unfold computeGeometryMinDistance
      dsimp only
      split_ifs with h1 h2
      · exact (min_eq_left le_top).symm
      · exact (min_eq_right (le_of_lt h2)).symm
      · exact (min_eq_left (le_of_not_lt h2)).symm
    rw [hx, min_assoc]

/-- C5 (amended) — for the sqlite server implementation
`computeGeometryMinDistance`, the distance to a MultiLineString is the
minimum over all parts of the single-part (LineString) distance; parts
with fewer than two valid coordinates contribute `Infinity`. -/
theorem computeGeometryMinDistance_multi_eq_min_over_parts
    (pt : Coord) (parts : List (List (Option Coord))) :
    computeGeometryMinDistance pt (some (.multiLineString parts)) =
      (parts.map
        (fun ls => computeGeometryMinDistance pt (some (.lineString ls)))).foldr min ⊤ := by
  show parts.foldl
      (fun best ls =>
        let cs := filterValid ls
        if cs.length < 2 then best
        else
          let d := pointToLineStringDistance pt cs
          if d < best then d else best) ⊤ = _
  rw [multiLineString_foldl_eq_min]
  exact min_eq_right le_top

/-- A concrete query point at the origin, used in evaluations below. -/
def p0 : Coord := (0, 0)

/-- A polyline along the x-axis through the origin, used as concrete
input below. -/
def lsPart : List (Option Coord) := [some (0, 0), some (10, 0)]

theorem lsPart_lineDist_eval :
    pointToLineStringDistance p0 (filterValid lsPart) = (0 : WithTop ℚ) := by
  simp only [p0, lsPart, filterValid, List.filterMap_cons, List.filterMap_nil,
    pointToLineStringDistance, List.tail_cons, List.zip_cons_cons, List.zip_nil_right,
    List.foldl_cons, List.foldl_nil, pointToSegmentDistance]
  norm_num

theorem lsPart_geometry_eval :
    computeGeometryMinDistance p0 (some (.lineString lsPart)) = (0 : WithTop ℚ) := by
  unfold computeGeometryMinDistance
  dsimp only
  rw [if_neg (by simp [lsPart, filterValid])]
  exact lsPart_lineDist_eval

/-- C5 — counterexample.  For the index.js implementation
`pointToGeometryMinDistanceMeters`, a MultiLineString is not handled at
all: the computed distance is `Infinity`, not the minimum over the parts
(here 0, the query point lying on the only part). -/
theorem pointToGeometryMinDistanceMeters_multi_not_min :
    (pointToGeometryMinDistanceMeters p0 (some (.multiLineString [lsPart]))).distance ≠
      ([lsPart].map
        (fun ls => computeGeometryMinDistance p0 (some (.lineString ls)))).foldr min ⊤ ∧
    ([lsPart].map
      (fun ls => computeGeometryMinDistance p0 (some (.lineString ls)))).foldr min ⊤ =
      (0 : WithTop ℚ) := by
  have h0 : ([lsPart].map
      (fun ls => computeGeometryMinDistance p0 (some (.lineString ls)))).foldr min ⊤ =
      (0 : WithTop ℚ) := by
    simp [lsPart_geometry_eval]
  refine ⟨?_, h0⟩
  rw [h0]
  show (⊤ : WithTop ℚ) ≠ (0 : WithTop ℚ)
  simp

/-! ## The per-service CSV scan and availability classification
(src/index.js lines 132-223). -/

/-- One CSV row as the `csv-parser` stream delivers it: the parse result
of its `GEOMETRIA` WKT (`none` when blank, unparsable, or without a
`coordinates` array — such a row is skipped at lines 141-152), plus the
service columns the code reads.  A column absent from the file is
`none` (JS `undefined`). -/
structure CsvRow where
  geometria : Option Geometry := none
  IND_IP : Option String := none
  IND_MF : Option String := none
  IND_PAV : Option String := none
  TP_PAV : Option String := none
  DATA : Option String := none
  IND_RDAGU : Option String := none
  IND_RDESG : Option String := none
  IND_RE : Option String := none
  IND_RT : Option String := none
  PROGRAMACAO : Option String := none
  TURNO : Option String := none
  NOME_DISTRITO : Option String := none
  COOPERATIVA_RESPONSAVEL : Option String := none
deriving DecidableEq

/-- The running `best` of `readCsvStreamClosestFeature`:
`{ ...dataForCompare, row, parsed }` — we keep the `distanceMeters`
value and the row (the retained `parsed` geometry is `row.geometria`). -/
structure BestEntry where
  distanceMeters : DistVal
  row : CsvRow
deriving DecidableEq

/-- A dataset file on disk: missing (`fs.existsSync` false, the promise
resolves to `null`), or present with its parsed rows in stream order. -/
inductive FileData
  | missing
  | rows (rs : List CsvRow)

/-- Function `readCsvStreamClosestFeature` from src/index.js lines 132-171,
specialised to the only callback the code ever passes (lines 185-188:
`onRowGeom` computes `pointToGeometryMinDistanceMeters` and returns
`{ distanceMeters }`, never null).  A row with no usable parse is
skipped; otherwise the row replaces the best candidate exactly when
`distanceMeters.distance < best.distanceMeters.distance` — a JS
comparison that is false whenever either side is `undefined`. -/
def readCsvStreamClosestFeature (pt : Coord) (fd : FileData) : Option BestEntry :=
  match fd with
  | .missing => none
  | .rows rs =>
    rs.foldl
      (fun best row =>
        match row.geometria with
        | none => best
        | some parsed =>
          let distanceMeters := pointToGeometryMinDistanceMeters pt (some parsed)
          match best with
          | none => some { distanceMeters := distanceMeters, row := row }
          | some b =>
            if jsLt distanceMeters.distanceProp b.distanceMeters.distanceProp then
              some { distanceMeters := distanceMeters, row := row }
            else best)
      none

/-- The service keys `analyzeServiceNearest` distinguishes. -/
inductive ServiceKey
  | iluminacao | meio_fio | pavimentacao | rede_agua
  | rede_esgoto | rede_eletrica | telefone | coleta_seletiva
deriving DecidableEq

/-- The `FILES` table of src/index.js lines 17-25 has an entry for every
service key except `coleta_seletiva`; `analyzeServiceNearest` returns
`null` when the lookup is `undefined` (line 183). -/
def FILES_has : ServiceKey → Bool
  | .coleta_seletiva => false
  | _ => true

/-- The JS result object of `analyzeServiceNearest`; keys the branch
does not set are `none` (JS `undefined`). -/
structure ServiceResult where
  disponivel : String
  tipo : Option String := none
  data_apuracao : Option String := none
  programacao : Option String := none
  turno : Option String := none
  distritos : Option String := none
  cooperativa_responsavel : Option String := none
deriving DecidableEq

/-- JS `v || d` for a string with a string default: `undefined`, `null`
and `""` are falsy. -/
def jsOrStr (v : Option String) (d : String) : String :=
  match v with
  | some s => if s = "" then d else s
  | none => d

/-- JS `v || null`: the value when truthy, else `null`. -/
def jsOrNull (v : Option String) : Option String :=
  match v with
  | some s => if s = "" then none else some s
  | none => none

/-- The object of src/index.js lines 193-194:
`{ disponivel: "não encontrado", tipo: undefined, data_apuracao: null }`. -/
def notFoundResult : ServiceResult := { disponivel := "não encontrado" }

/-- The per-service branches of src/index.js lines 198-221, applied to
the best row once it passed the threshold test. -/
def analyzeMatched (serviceKey : ServiceKey) (r : CsvRow) : ServiceResult :=
  match serviceKey with
  | .iluminacao => { disponivel := mapIndicatorToDisponivel r.IND_IP }
  | .meio_fio =>
    { disponivel := mapIndicatorToDisponivel r.IND_MF, tipo := some "não informado" }
  | .pavimentacao =>
    { disponivel := mapIndicatorToDisponivel r.IND_PAV,
      tipo := some (jsOrStr r.TP_PAV "não informado"),
      data_apuracao := jsOrNull r.DATA }
  | .rede_agua =>
    { disponivel := mapIndicatorToDisponivel r.IND_RDAGU, data_apuracao := jsOrNull r.DATA }
  | .rede_esgoto =>
    { disponivel := mapIndicatorToDisponivel r.IND_RDESG, data_apuracao := jsOrNull r.DATA }
  | .rede_eletrica => { disponivel := mapIndicatorToDisponivel r.IND_RE }
  | .telefone => { disponivel := mapIndicatorToDisponivel r.IND_RT }
  | .coleta_seletiva => { disponivel := mapIndicatorToDisponivel r.IND_RT }

/-- Squared availability threshold: the source compares
`best.distanceMeters.distance > 50` (metres); on squared distances the
constant is 50² = 2500. -/
def DISTANCE_THRESHOLD_SQ : ℚ := 2500

/-- Function `analyzeServiceNearest` from src/index.js lines 181-223: `null` when
the `FILES` table has no entry; the not-found object when the scan found
nothing or the best distance exceeds the threshold (a comparison that is
false when `.distance` is `undefined`); otherwise the per-service
branch on the best row. -/
def analyzeServiceNearest (pt : Coord) (serviceKey : ServiceKey) (fd : FileData) :
    Option ServiceResult :=
  if FILES_has serviceKey then
    match readCsvStreamClosestFeature pt fd with
    | none => some notFoundResult
    | some best =>
      if jsGtConst best.distanceMeters.distanceProp DISTANCE_THRESHOLD_SQ then
        some notFoundResult
      else some (analyzeMatched serviceKey best.row)
  else none

/-- The `coleta_seletiva` object of the response (src/index.js,
`buildSuccessResponse` lines 260-266). -/
structure ColetaSeletivaOut where
  disponivel : String
  programacao : Option String
  turno : Option String
  distritos : Option String
  cooperativa_responsavel : Option String
deriving DecidableEq

/-- The `services` argument of `buildSuccessResponse` (the handler at
line 328 passes only these seven analysis results; the eighth —
coleta_seletiva — is computed at line 325 but dropped by the
destructuring at line 317). -/
structure ServicesIn where
  iluminacao : Option ServiceResult := none
  meio_fio : Option ServiceResult := none
  pavimentacao : Option ServiceResult := none
  rede_agua : Option ServiceResult := none
  rede_esgoto : Option ServiceResult := none
  rede_eletrica : Option ServiceResult := none
  telefone : Option ServiceResult := none
deriving DecidableEq

/-- The `coleta_seletiva` field of `buildSuccessResponse` (src/index.js
lines 260-266): a hard-coded constant, independent of `services`. -/
def buildSuccessResponse_coletaSeletiva (_services : ServicesIn) : ColetaSeletivaOut :=
  { disponivel := "não encontrado", programacao := none, turno := none,
    distritos := none, cooperativa_responsavel := none }

/-! ## Concrete rows and evaluation lemmas for the scan. -/

/-- A far polyline (x from 100 to 110 on the x-axis): squared distance
10000 from the origin, beyond the 50 m threshold (2500). -/
def farPart : List (Option Coord) := [some (100, 0), some (110, 0)]

theorem farPart_lineDist_eval :
    pointToLineStringDistance p0 (filterValid farPart) = ((10000 : ℚ) : WithTop ℚ) := by
  simp only [p0, farPart, filterValid, List.filterMap_cons, List.filterMap_nil,
    pointToLineStringDistance, List.tail_cons, List.zip_cons_cons, List.zip_nil_right,
    List.foldl_cons, List.foldl_nil, pointToSegmentDistance]
  norm_num

theorem geomLine_eval :
    pointToGeometryMinDistanceMeters p0 (some (.lineString lsPart)) =
      .obj ((0 : ℚ) : WithTop ℚ) := by
  unfold pointToGeometryMinDistanceMeters
  dsimp only
  rw [if_pos (by simp [lsPart]), if_neg (by simp [lsPart, filterValid])]
  rw [lsPart_lineDist_eval]
  rfl

theorem geomFar_eval :
    pointToGeometryMinDistanceMeters p0 (some (.lineString farPart)) =
      .obj ((10000 : ℚ) : WithTop ℚ) := by
  unfold pointToGeometryMinDistanceMeters
  dsimp only
  rw [if_pos (by simp [farPart]), if_neg (by simp [farPart, filterValid])]
  rw [farPart_lineDist_eval]

theorem jsGt_zero_false :
    jsGtConst (some ((0 : ℚ) : WithTop ℚ)) DISTANCE_THRESHOLD_SQ = false := by
  unfold jsGtConst DISTANCE_THRESHOLD_SQ
  simp only [decide_eq_false_iff_not]
  intro h
  have h2 : (2500 : ℚ) < 0 := by exact_mod_cast h
  norm_num at h2

theorem jsGt_far_true :
    jsGtConst (some ((10000 : ℚ) : WithTop ℚ)) DISTANCE_THRESHOLD_SQ = true := by
  unfold jsGtConst DISTANCE_THRESHOLD_SQ
  simp only [decide_eq_true_eq]
  exact_mod_cast (by norm_num : (2500 : ℚ) < 10000)

/-- A row whose `GEOMETRIA` parsed to a geometry with coordinates that is
neither LineString nor MultiLineString (e.g. `POINT(5 5)`): the row is
not skipped, but `pointToGeometryMinDistanceMeters` returns the number
`Infinity`, whose `.distance` property is `undefined`. -/
def rowOther : CsvRow := { geometria := some .other, IND_PAV := some "N" }

/-- A row with a LineString through the query point and indicator "S". -/
def rowLine : CsvRow := { geometria := some (.lineString lsPart), IND_PAV := some "S" }

/-- A row with a LineString 100 m away and indicator "S". -/
def rowFar : CsvRow := { geometria := some (.lineString farPart), IND_PAV := some "S" }

/-- A row whose `GEOMETRIA` is blank or unparsable: skipped by the scan. -/
def rowNoGeom : CsvRow := { IND_PAV := some "S" }

theorem readCsv_rowFar_eval :
    readCsvStreamClosestFeature p0 (.rows [rowFar]) =
      some { distanceMeters := .obj ((10000 : ℚ) : WithTop ℚ), row := rowFar } := by
  have h1 : readCsvStreamClosestFeature p0 (.rows [rowFar]) =
      some
        { distanceMeters := pointToGeometryMinDistanceMeters p0 (some (.lineString farPart)),
          row := rowFar } := rfl
  rw [h1, geomFar_eval]

theorem readCsv_rowLine_only_eval (r : CsvRow) (hg : r.geometria = some (.lineString lsPart)) :
    readCsvStreamClosestFeature p0 (.rows [r]) =
      some { distanceMeters := .obj ((0 : ℚ) : WithTop ℚ), row := r } := by
  unfold readCsvStreamClosestFeature
  simp only [List.foldl_cons, List.foldl_nil, hg]
  rw [geomLine_eval]

/-- C2 — the bug, evaluated.  With a POINT-geometry row first and a
LineString row through the query point second, the scan keeps the POINT
row: its `distanceMeters` is the number `Infinity`, `.distance` on it is
`undefined`, every later `<` comparison is false — so the candidate with
the true global-minimum distance (the second row, at distance 0) is
never selected, and the service is classified from the POINT row's
indicator ("N" → "Não") instead of the nearest row's ("S"). -/
theorem readCsvClosest_keeps_infinity_row :
    readCsvStreamClosestFeature p0 (.rows [rowOther, rowLine]) =
      some { distanceMeters := .infNum, row := rowOther } ∧
    (pointToGeometryMinDistanceMeters p0 rowLine.geometria).distance = ((0 : ℚ) : WithTop ℚ) ∧
    analyzeServiceNearest p0 .pavimentacao (.rows [rowOther, rowLine]) =
      some { disponivel := "Não", tipo := some "não informado", data_apuracao := none } ∧
    rowLine.IND_PAV = some "S" := by
  refine ⟨rfl, ?_, rfl, rfl⟩
  show (pointToGeometryMinDistanceMeters p0 (some (.lineString lsPart))).distance = _
  rw [geomLine_eval]
  rfl

/-- C9 — empty and not-found paths, and the failing path, evaluated.
A missing file, an empty dataset, and a dataset whose rows all lack a
usable geometry parse give `null`/not-found results; a finite best
distance beyond the threshold gives the not-found result; but a dataset
whose only row has a parsed non-polyline geometry (distance `Infinity`)
is returned as a *match* — `undefined > 50` is false — instead of the
claimed empty/NotFound outcome. -/
theorem resolver_empty_and_infinity_paths :
    readCsvStreamClosestFeature p0 .missing = none ∧
    readCsvStreamClosestFeature p0 (.rows []) = none ∧
    readCsvStreamClosestFeature p0 (.rows [rowNoGeom]) = none ∧
    analyzeServiceNearest p0 .pavimentacao .missing = some notFoundResult ∧
    analyzeServiceNearest p0 .pavimentacao (.rows [rowNoGeom]) = some notFoundResult ∧
    analyzeServiceNearest p0 .pavimentacao (.rows [rowFar]) = some notFoundResult ∧
    analyzeServiceNearest p0 .pavimentacao (.rows [rowOther]) =
      some { disponivel := "Não", tipo := some "não informado", data_apuracao := none } ∧
    ({ disponivel := "Não", tipo := some "não informado", data_apuracao := none } :
      ServiceResult) ≠ notFoundResult := by
  refine ⟨rfl, rfl, rfl, rfl, rfl, ?_, rfl, by decide⟩
  unfold analyzeServiceNearest
  rw [readCsv_rowFar_eval]
  show (if jsGtConst (some ((10000 : ℚ) : WithTop ℚ)) DISTANCE_THRESHOLD_SQ then
    some notFoundResult else some (analyzeMatched .pavimentacao rowFar)) = some notFoundResult
  rw [jsGt_far_true]
  rfl

/-! ## C6: no paving-type inference; C7: selective collection. -/

/-- A matched paving row with a blank indicator but a concrete paving
type. -/
def rowPavBlankInd : CsvRow :=
  { geometria := some (.lineString lsPart), IND_PAV := some "", TP_PAV := some "ASFALTO" }

/-- C6 — counterexample.  A matched paving segment whose indicator is
blank (binary mapping gives Unknown, neither Available nor Unavailable)
and whose paving-type field is the non-empty "ASFALTO" is classified
"não informado" (Unknown), not "Sim" (Available): the claimed inference
from a non-empty paving type does not exist in the code. -/
theorem pavimentacao_no_type_inference_counterexample :
    analyzeServiceNearest p0 .pavimentacao (.rows [rowPavBlankInd]) =
      some { disponivel := "não informado", tipo := some "ASFALTO", data_apuracao := none } ∧
    rowPavBlankInd.IND_PAV = some "" ∧
    rowPavBlankInd.TP_PAV = some "ASFALTO" ∧
    "não informado" ≠ "Sim" := by
  refine ⟨?_, rfl, rfl, by decide⟩
  unfold analyzeServiceNearest
  rw [readCsv_rowLine_only_eval rowPavBlankInd rfl]
  simp only [FILES_has, DistVal.distanceProp, jsGt_zero_false, if_true, Bool.false_eq_true,
    if_false]
  rfl

/-- C6 (amended) — the paving availability is exactly the binary mapping
of the indicator: when the mapping yields neither Available nor
Unavailable it is returned unchanged (so never Available), and the
paving-type field has no influence on availability (two rows with the
same indicator but different paving types classify identically); the
paving type only fills the `tipo` field. -/
theorem analyzePavimentacao_ignores_type (r r2 : CsvRow)
    (hsame : r.IND_PAV = r2.IND_PAV)
    (h1 : mapIndicatorToDisponivel r.IND_PAV ≠ "Sim")
    (_h2 : mapIndicatorToDisponivel r.IND_PAV ≠ "Não") :
    (analyzeMatched .pavimentacao r).disponivel = mapIndicatorToDisponivel r.IND_PAV ∧
    (analyzeMatched .pavimentacao r).disponivel ≠ "Sim" ∧
    (analyzeMatched .pavimentacao r).disponivel = (analyzeMatched .pavimentacao r2).disponivel := by
  refine ⟨rfl, h1, ?_⟩
  show mapIndicatorToDisponivel r.IND_PAV = mapIndicatorToDisponivel r2.IND_PAV
  rw [hsame]

/-- C6 (amended) — witness at a concrete matched row: blank indicator,
non-empty type "ASFALTO"; the availability stays the mapped value
"não informado" and is not "Sim". -/
theorem analyzePavimentacao_ignores_type_witness :
    (analyzeMatched .pavimentacao rowPavBlankInd).disponivel =
      mapIndicatorToDisponivel rowPavBlankInd.IND_PAV ∧
    (analyzeMatched .pavimentacao rowPavBlankInd).disponivel ≠ "Sim" ∧
    (analyzeMatched .pavimentacao rowPavBlankInd).disponivel =
      (analyzeMatched .pavimentacao { IND_PAV := some "" }).disponivel :=
  analyzePavimentacao_ignores_type rowPavBlankInd { IND_PAV := some "" } rfl
    (by decide) (by decide)

/-- A matched selective-collection row whose program field says
"SEM COLETA DOMICILIAR". -/
def rowSemColeta : CsvRow :=
  { geometria := some (.lineString lsPart), PROGRAMACAO := some "SEM COLETA DOMICILIAR",
    IND_RT := some "S" }

/-- C7 — counterexample.  The claimed selective-collection logic does not
exist: the `FILES` table has no `coleta_seletiva` entry, so the analysis
returns `null`, and the response object hard-codes
`disponivel = "não encontrado"` with null program/shift/district/
responsible fields — even though the nearest segment's program contains
"SEM COLETA", for which the claim demands Unavailable ("Não"). -/
theorem coleta_seletiva_hardcoded_counterexample :
    rowSemColeta.PROGRAMACAO = some "SEM COLETA DOMICILIAR" ∧
    analyzeServiceNearest p0 .coleta_seletiva (.rows [rowSemColeta]) = none ∧
    buildSuccessResponse_coletaSeletiva {} =
      { disponivel := "não encontrado", programacao := none, turno := none,
        distritos := none, cooperativa_responsavel := none } ∧
    "não encontrado" ≠ "Não" := by
  exact ⟨rfl, rfl, rfl, by decide⟩

/-- C7 (amended) — for every request the selective-collection entry of
the response is the hard-coded NotFound object, independent of the
analysis results; the (unreachable) `coleta_seletiva` branch of
`analyzeServiceNearest` would merely apply the binary indicator mapping
to `IND_RT`, and the `FILES` lookup makes the whole analysis return
`null` for this key on any dataset. -/
theorem coleta_seletiva_always_notFound (services : ServicesIn) (pt : Coord)
    (fd : FileData) (r : CsvRow) :
    buildSuccessResponse_coletaSeletiva services =
      { disponivel := "não encontrado", programacao := none, turno := none,
        distritos := none, cooperativa_responsavel := none } ∧
    analyzeServiceNearest pt .coleta_seletiva fd = none ∧
    (analyzeMatched .coleta_seletiva r).disponivel = mapIndicatorToDisponivel r.IND_RT :=
  ⟨rfl, rfl, rfl⟩

/-! ## Aggregation (src/ingest_sqlite.js).

`ingestFile` dispatches each CSV row (after `normalizeKey` on every
field) to one prepared upsert per dataset kind; SQLite executes them in
row order.  For a fixed segment id this is a left fold over the sequence
of contributing rows: the first one INSERTs (unspecified columns NULL),
each later one runs the dataset's ON CONFLICT UPDATE clause.  Field
values are the already-trimmed strings; `none` is SQL NULL, `some ""`,
an inserted empty string. -/

/-- One dataset row's contribution for a fixed segment id, tagged by the
dataset kind (the `dataBatch` entries of src/ingest_sqlite.js lines
177-209). -/
inductive DataOp
  | ilum (v : String)
  | mf (v : String)
  | pav (ind tp dt : String)
  | agua (v : String)
  | esgoto (v : String)
  | eletrica (v : String)
  | telefone (v : String)
  | coleta (prog turno distrito coop : String)
deriving DecidableEq

/-- A `trecho_data` row (src/ingest_sqlite.js lines 29-44); every column
nullable. -/
structure TrechoData where
  ind_ip : Option String := none
  ind_mf : Option String := none
  ind_pav : Option String := none
  tp_pav : Option String := none
  data_pav : Option String := none
  ind_rdagu : Option String := none
  ind_rdesg : Option String := none
  ind_re : Option String := none
  ind_rt : Option String := none
  programacao : Option String := none
  turno : Option String := none
  nome_distrito : Option String := none
  cooperativa_responsavel : Option String := none
deriving DecidableEq

/-- SQL `COALESCE(NULLIF(excluded.col, ''), trecho_data.col)`: the new
value when non-empty, else the stored one. -/
def coalesceNonEmpty (newV : String) (old : Option String) : Option String :=
  if newV = "" then old else some newV

/-- SQLite string comparison (byte-wise `memcmp`; on UTF-8 data this is
exactly the lexicographic order of the character lists), as a
kernel-evaluable Boolean. -/
def charListLt : List Char → List Char → Bool
  | [], [] => false
  | [], _ :: _ => true
  | _ :: _, [] => false
  | a :: as, b :: bs => if a < b then true else if b < a then false else charListLt as bs

/-- Comparison `a < b` in SQLite's string order. -/
def strLt (a b : String) : Bool := charListLt a.data b.data

/-- The `data_pav` CASE of src/ingest_sqlite.js lines 103-107: keep the
stored date when the new one is empty; otherwise the larger of the two
(NULL counts as smallest). -/
def dateMaxUpdate (newV : String) (old : Option String) : Option String :=
  if newV = "" then old
  else
    match old with
    | none => some newV
    | some o => if strLt o newV then some newV else some o

/-- The INSERT arm of each upsert: only the dataset's own columns are
set (possibly to the empty string); the rest are NULL. -/
def insertOp : DataOp → TrechoData
  | .ilum v => { ind_ip := some v }
  | .mf v => { ind_mf := some v }
  | .pav ind tp dt => { ind_pav := some ind, tp_pav := some tp, data_pav := some dt }
  | .agua v => { ind_rdagu := some v }
  | .esgoto v => { ind_rdesg := some v }
  | .eletrica v => { ind_re := some v }
  | .telefone v => { ind_rt := some v }
  | .coleta p t d c =>
    { programacao := some p, turno := some t, nome_distrito := some d,
      cooperativa_responsavel := some c }

/-- The ON CONFLICT UPDATE arm of each upsert (src/ingest_sqlite.js
lines 87-139): ilum/mf/eletrica/telefone/coleta overwrite
unconditionally; pav/agua/esgoto use `COALESCE(NULLIF(...))`;
`data_pav` takes the maximum non-empty date. -/
def updateOp (r : TrechoData) : DataOp → TrechoData
  | .ilum v => { r with ind_ip := some v }
  | .mf v => { r with ind_mf := some v }
  | .pav ind tp dt =>
    { r with
      ind_pav := coalesceNonEmpty ind r.ind_pav,
      tp_pav := coalesceNonEmpty tp r.tp_pav,
      data_pav := dateMaxUpdate dt r.data_pav }
  | .agua v => { r with ind_rdagu := coalesceNonEmpty v r.ind_rdagu }
  | .esgoto v => { r with ind_rdesg := coalesceNonEmpty v r.ind_rdesg }
  | .eletrica v => { r with ind_re := some v }
  | .telefone v => { r with ind_rt := some v }
  | .coleta p t d c =>
    { r with
      programacao := some p,
      turno := some t,
      nome_distrito := some d,
      cooperativa_responsavel := some c }

/-- One upsert against the (possibly absent) stored row. -/
def mergeStep (acc : Option TrechoData) (op : DataOp) : Option TrechoData :=
  match acc with
  | none => some (insertOp op)
  | some r => some (updateOp r op)

/-- The aggregated `trecho_data` row for one segment id after all its
contributing rows ran, in order. -/
def mergeOps (ops : List DataOp) : Option TrechoData :=
  ops.foldl mergeStep none

/-- The `geomBatch`/`upsertGeom` flow (src/ingest_sqlite.js lines 81-85,
170-175): a row's geometry parse is written only when it succeeded
(`if (geo)`), and `ON CONFLICT DO UPDATE SET geojson=excluded.geojson`
overwrites whatever was stored.  Input: the per-row parse results
(serialised GeoJSON, `none` when blank/unparsable). -/
def mergeGeoms (parses : List (Option String)) : Option String :=
  parses.foldl (fun acc g => match g with | none => acc | some geojson => some geojson) none

/-- The pav-indicator values carried by a sequence of contributions. -/
def pavInds : List DataOp → List String :=
  List.filterMap fun op => match op with | .pav ind _ _ => some ind | _ => none

/-- The pav-date values carried by a sequence of contributions. -/
def pavDates : List DataOp → List String :=
  List.filterMap fun op => match op with | .pav _ _ dt => some dt | _ => none

/-- The lighting-indicator values carried by a sequence of
contributions. -/
def ilumVals : List DataOp → List String :=
  List.filterMap fun op => match op with | .ilum v => some v | _ => none

/-- The last non-empty value of a list (the actual policy of the
coalescing columns). -/
def lastNonEmpty (l : List String) : Option String := (l.filter (fun v => v ≠ "")).getLast?

/-- The first non-empty value of a list (the policy the claim states). -/
def firstNonEmpty (l : List String) : Option String := (l.filter (fun v => v ≠ "")).head?

/-- The maximum non-empty value of a list in SQLite string order
(modelled by Lean's lexicographic string order, which agrees with
byte-wise comparison on UTF-8 data). -/
def maxNonEmpty (l : List String) : Option String :=
  (l.filter (fun v => v ≠ "")).foldl
    (fun acc v =>
      match acc with
      | none => some v
      | some m => some (if strLt m v then v else m)) none

theorem empty_lt_of_ne (s : String) (h : s ≠ "") : strLt "" s = true := by
  cases s with
  | mk data =>
    cases data with
    | nil => exact absurd rfl h
    | cons c cs => rfl

theorem mergeOps_append (ops : List DataOp) (op : DataOp) :
    mergeOps (ops ++ [op]) = mergeStep (mergeOps ops) op := by
  simp [mergeOps, List.foldl_append]

theorem maxNonEmpty_concat (xs : List String) (d : String) (hd : d ≠ "") :
    maxNonEmpty (xs ++ [d]) =
      some (match maxNonEmpty xs with
            | none => d
            | some m => if strLt m d then d else m) := by
  unfold maxNonEmpty
  rw [List.filter_append]
  have hf : [d].filter (fun v => v ≠ "") = [d] := by
    simp [hd]
  rw [hf, List.foldl_append]
  simp only [List.foldl_cons, List.foldl_nil]
  cases (xs.filter (fun v => v ≠ "")).foldl
      (fun acc v =>
        match acc with
        | none => some v
        | some m => some (if strLt m v then v else m)) none with
  | none => rfl
  | some m => rfl

theorem maxNonEmpty_concat_empty (xs : List String) :
    maxNonEmpty (xs ++ [""]) = maxNonEmpty xs := by
  unfold maxNonEmpty
  rw [List.filter_append]
  simp

theorem lastNonEmpty_concat (xs : List String) (d : String) (hd : d ≠ "") :
    lastNonEmpty (xs ++ [d]) = some d := by
  unfold lastNonEmpty
  rw [List.filter_append]
  have hf : [d].filter (fun v => v ≠ "") = [d] := by
    simp [hd]
  rw [hf]
  exact List.getLast?_concat _

theorem lastNonEmpty_concat_empty (xs : List String) :
    lastNonEmpty (xs ++ [""]) = lastNonEmpty xs := by
  unfold lastNonEmpty
  rw [List.filter_append]
  simp

theorem mergeOps_eq_none_iff (ops : List DataOp) : mergeOps ops = none ↔ ops = [] := by
  induction ops using List.reverseRecOn with
  | nil => simp [mergeOps]
  | append_singleton l a ih =>
    rw [mergeOps_append]
    constructor
    · intro h
      cases hml : mergeOps l with
      | none => rw [hml] at h; simp [mergeStep] at h
      | some r => rw [hml] at h; simp [mergeStep] at h
    · intro h
      exact absurd h (by simp)

theorem mergeOps_ind_ip (ops : List DataOp) (r : TrechoData) (h : mergeOps ops = some r) :
    r.ind_ip = (ilumVals ops).getLast? := by
  induction ops using List.reverseRecOn generalizing r with
  | nil => simp [mergeOps] at h
  | append_singleton l a ih =>
    rw [mergeOps_append] at h
    have hvals : ilumVals (l ++ [a]) = ilumVals l ++ ilumVals [a] := by
      simp [ilumVals]
    cases hml : mergeOps l with
    | none =>
      have hl : l = [] := (mergeOps_eq_none_iff l).mp hml
      subst hl
      rw [hml] at h
      simp only [mergeStep, Option.some.injEq] at h
      subst h
      cases a <;> simp [insertOp, ilumVals, List.filterMap, List.getLast?]
    | some rl =>
      rw [hml] at h
      simp only [mergeStep, Option.some.injEq] at h
      subst h
      rw [hvals]
      cases a <;>
        simp [updateOp, ilumVals, List.filterMap, List.getLast?_concat, ih rl hml]

theorem mergeOps_ind_pav (ops : List DataOp) (r : TrechoData) (h : mergeOps ops = some r) :
    ∀ v, lastNonEmpty (pavInds ops) = some v → r.ind_pav = some v := by
  induction ops using List.reverseRecOn generalizing r with
  | nil => simp [mergeOps] at h
  | append_singleton l a ih =>
    intro v hv
    rw [mergeOps_append] at h
    cases hml : mergeOps l with
    | none =>
      have hl : l = [] := (mergeOps_eq_none_iff l).mp hml
      subst hl
      rw [hml] at h
      simp only [mergeStep, Option.some.injEq] at h
      subst h
      cases a with
      | pav ind tp dt =>
        have hpi : pavInds ([] ++ [DataOp.pav ind tp dt]) = [ind] := by
          simp [pavInds]
        rw [hpi] at hv
        by_cases hind : ind = ""
        · subst hind
          simp [lastNonEmpty] at hv
        · rw [show ([ind] : List String) = [] ++ [ind] from rfl,
            lastNonEmpty_concat [] ind hind] at hv
          cases hv
          simp [insertOp]
      | ilum w => simp [pavInds, lastNonEmpty] at hv
      | mf w => simp [pavInds, lastNonEmpty] at hv
      | agua w => simp [pavInds, lastNonEmpty] at hv
      | esgoto w => simp [pavInds, lastNonEmpty] at hv
      | eletrica w => simp [pavInds, lastNonEmpty] at hv
      | telefone w => simp [pavInds, lastNonEmpty] at hv
      | coleta w x y z => simp [pavInds, lastNonEmpty] at hv
    | some rl =>
      rw [hml] at h
      simp only [mergeStep, Option.some.injEq] at h
      subst h
      cases a with
      | pav ind tp dt =>
        have hpi : pavInds (l ++ [DataOp.pav ind tp dt]) = pavInds l ++ [ind] := by
          simp [pavInds]
        rw [hpi] at hv
        by_cases hind : ind = ""
        · subst hind
          rw [lastNonEmpty_concat_empty] at hv
          simpa [updateOp, coalesceNonEmpty] using ih rl hml v hv
        · rw [lastNonEmpty_concat _ _ hind] at hv
          cases hv
          simp [updateOp, coalesceNonEmpty, hind]
      | ilum w =>
        have : pavInds (l ++ [DataOp.ilum w]) = pavInds l := by simp [pavInds]
        rw [this] at hv
        simpa [updateOp] using ih rl hml v hv
      | mf w =>
        have : pavInds (l ++ [DataOp.mf w]) = pavInds l := by simp [pavInds]
        rw [this] at hv
        simpa [updateOp] using ih rl hml v hv
      | agua w =>
        have : pavInds (l ++ [DataOp.agua w]) = pavInds l := by simp [pavInds]
        rw [this] at hv
        simpa [updateOp] using ih rl hml v hv
      | esgoto w =>
        have : pavInds (l ++ [DataOp.esgoto w]) = pavInds l := by simp [pavInds]
        rw [this] at hv
        simpa [updateOp] using ih rl hml v hv
      | eletrica w =>
        have : pavInds (l ++ [DataOp.eletrica w]) = pavInds l := by simp [pavInds]
        rw [this] at hv
        simpa [updateOp] using ih rl hml v hv
      | telefone w =>
        have : pavInds (l ++ [DataOp.telefone w]) = pavInds l := by simp [pavInds]
        rw [this] at hv
        simpa [updateOp] using ih rl hml v hv
      | coleta w x y z =>
        have : pavInds (l ++ [DataOp.coleta w x y z]) = pavInds l := by simp [pavInds]
        rw [this] at hv
        simpa [updateOp] using ih rl hml v hv

theorem mergeOps_data_pav (ops : List DataOp) (r : TrechoData) (h : mergeOps ops = some r) :
    (∀ v, maxNonEmpty (pavDates ops) = some v → r.data_pav = some v) ∧
    (maxNonEmpty (pavDates ops) = none → r.data_pav = none ∨ r.data_pav = some "") := by
  induction ops using List.reverseRecOn generalizing r with
  | nil => simp [mergeOps] at h
  | append_singleton l a ih =>
    rw [mergeOps_append] at h
    cases hml : mergeOps l with
    | none =>
      have hl : l = [] := (mergeOps_eq_none_iff l).mp hml
      subst hl
      rw [hml] at h
      simp only [mergeStep, Option.some.injEq] at h
      subst h
      cases a with
      | pav ind tp dt =>
        have hpd : pavDates ([] ++ [DataOp.pav ind tp dt]) = [dt] := by
          simp [pavDates]
        rw [hpd]
        by_cases hdt : dt = ""
        · subst hdt
          constructor
          · intro v hv
            simp [maxNonEmpty] at hv
          · intro _
            right
            simp [insertOp]
        · constructor
          · intro v hv
            rw [show ([dt] : List String) = [] ++ [dt] from rfl,
              maxNonEmpty_concat [] dt hdt] at hv
            simp only [Option.some.injEq] at hv
            rw [show maxNonEmpty [] = none from rfl] at hv
            simp only at hv
            subst hv
            simp [insertOp]
          · intro hv
            rw [show ([dt] : List String) = [] ++ [dt] from rfl,
              maxNonEmpty_concat [] dt hdt] at hv
            simp at hv
      | ilum w => refine ⟨fun v hv => by simp [pavDates, maxNonEmpty] at hv,
          fun _ => Or.inl (by simp [insertOp])⟩
      | mf w => refine ⟨fun v hv => by simp [pavDates, maxNonEmpty] at hv,
          fun _ => Or.inl (by simp [insertOp])⟩
      | agua w => refine ⟨fun v hv => by simp [pavDates, maxNonEmpty] at hv,
          fun _ => Or.inl (by simp [insertOp])⟩
      | esgoto w => refine ⟨fun v hv => by simp [pavDates, maxNonEmpty] at hv,
          fun _ => Or.inl (by simp [insertOp])⟩
      | eletrica w => refine ⟨fun v hv => by simp [pavDates, maxNonEmpty] at hv,
          fun _ => Or.inl (by simp [insertOp])⟩
      | telefone w => refine ⟨fun v hv => by simp [pavDates, maxNonEmpty] at hv,
          fun _ => Or.inl (by simp [insertOp])⟩
      | coleta w x y z => refine ⟨fun v hv => by simp [pavDates, maxNonEmpty] at hv,
          fun _ => Or.inl (by simp [insertOp])⟩
    | some rl =>
      rw [hml] at h
      simp only [mergeStep, Option.some.injEq] at h
      subst h
      obtain ⟨ih1, ih2⟩ := ih rl hml
      cases a with
      | pav ind tp dt =>
        have hpd : pavDates (l ++ [DataOp.pav ind tp dt]) = pavDates l ++ [dt] := by
          simp [pavDates]
        rw [hpd]
        by_cases hdt : dt = ""
        · subst hdt
          rw [maxNonEmpty_concat_empty]
          constructor
          · intro v hv
            simpa [updateOp, dateMaxUpdate] using ih1 v hv
          · intro hv
            simpa [updateOp, dateMaxUpdate] using ih2 hv
        · constructor
          · intro v hv
            rw [maxNonEmpty_concat _ _ hdt] at hv
            simp only [Option.some.injEq] at hv
            cases hmax : maxNonEmpty (pavDates l) with
            | none =>
              rw [hmax] at hv
              simp only at hv
              subst hv
              rcases ih2 hmax with h0 | h0 <;>
                simp [updateOp, dateMaxUpdate, hdt, h0, empty_lt_of_ne dt hdt]
            | some m =>
              rw [hmax] at hv
              simp only at hv
              subst hv
              have hm := ih1 m hmax
              by_cases hlt : strLt m dt = true <;>
                simp [updateOp, dateMaxUpdate, hdt, hm, hlt]
          · intro hv
            rw [maxNonEmpty_concat _ _ hdt] at hv
            simp at hv
      | ilum w =>
        have hpd : pavDates (l ++ [DataOp.ilum w]) = pavDates l := by simp [pavDates]
        rw [hpd]
        exact ⟨fun v hv => by simpa [updateOp] using ih1 v hv,
          fun hv => by simpa [updateOp] using ih2 hv⟩
      | mf w =>
        have hpd : pavDates (l ++ [DataOp.mf w]) = pavDates l := by simp [pavDates]
        rw [hpd]
        exact ⟨fun v hv => by simpa [updateOp] using ih1 v hv,
          fun hv => by simpa [updateOp] using ih2 hv⟩
      | agua w =>
        have hpd : pavDates (l ++ [DataOp.agua w]) = pavDates l := by simp [pavDates]
        rw [hpd]
        exact ⟨fun v hv => by simpa [updateOp] using ih1 v hv,
          fun hv => by simpa [updateOp] using ih2 hv⟩
      | esgoto w =>
        have hpd : pavDates (l ++ [DataOp.esgoto w]) = pavDates l := by simp [pavDates]
        rw [hpd]
        exact ⟨fun v hv => by simpa [updateOp] using ih1 v hv,
          fun hv => by simpa [updateOp] using ih2 hv⟩
      | eletrica w =>
        have hpd : pavDates (l ++ [DataOp.eletrica w]) = pavDates l := by simp [pavDates]
        rw [hpd]
        exact ⟨fun v hv => by simpa [updateOp] using ih1 v hv,
          fun hv => by simpa [updateOp] using ih2 hv⟩
      | telefone w =>
        have hpd : pavDates (l ++ [DataOp.telefone w]) = pavDates l := by simp [pavDates]
        rw [hpd]
        exact ⟨fun v hv => by simpa [updateOp] using ih1 v hv,
          fun hv => by simpa [updateOp] using ih2 hv⟩
      | coleta w x y z =>
        have hpd : pavDates (l ++ [DataOp.coleta w x y z]) = pavDates l := by
          simp [pavDates]
        rw [hpd]
        exact ⟨fun v hv => by simpa [updateOp] using ih1 v hv,
          fun hv => by simpa [updateOp] using ih2 hv⟩

/-- C3 — counterexample.  Two paving rows for the same segment id, first
with indicator "S", then "N".  The claimed "first non-empty wins" policy
would store "S"; the ON CONFLICT clause `COALESCE(NULLIF(new, ''), old)`
stores the LAST non-empty value, "N". -/
theorem mergeOps_ind_pav_last_wins_counterexample :
    (mergeOps [DataOp.pav "S" "" "", DataOp.pav "N" "" ""]).map TrechoData.ind_pav =
      some (some "N") ∧
    firstNonEmpty (pavInds [DataOp.pav "S" "" "", DataOp.pav "N" "" ""]) = some "S" ∧
    "N" ≠ "S" := by
  refine ⟨?_, ?_, by decide⟩
  · decide
  · decide

/-- C3 (amended) — the actual per-field merge policy of
src/ingest_sqlite.js for a segment's contributing rows, in order: for
the coalescing indicator columns (here `ind_pav`; likewise `tp_pav`,
`ind_rdagu`, `ind_rdesg`) the LAST non-empty value wins; for the
unconditional columns (here `ind_ip`; likewise `ind_mf`, `ind_re`,
`ind_rt` and the collection fields) the last value wins even when
blank; for the date column `data_pav` the maximum (most recent)
non-empty value wins, as the claim states. -/
theorem mergeOps_policy (ops : List DataOp) (r : TrechoData)
    (h : mergeOps ops = some r) :
    (∀ v, lastNonEmpty (pavInds ops) = some v → r.ind_pav = some v) ∧
    r.ind_ip = (ilumVals ops).getLast? ∧
    (∀ v, maxNonEmpty (pavDates ops) = some v → r.data_pav = some v) :=
  ⟨mergeOps_ind_pav ops r h, mergeOps_ind_ip ops r h, (mergeOps_data_pav ops r h).1⟩

/-- C3 — witness: two paving rows and one lighting row; the stored
`ind_pav` is the last non-empty indicator "N", the stored `data_pav` the
maximum date "2020-01-01", the stored `ind_ip` the last lighting value. -/
theorem mergeOps_policy_witness :
    ({ ind_ip := some "", ind_pav := some "N", tp_pav := some "",
       data_pav := some "2020-01-01" } : TrechoData).ind_pav = some "N" ∧
    ({ ind_ip := some "", ind_pav := some "N", tp_pav := some "",
       data_pav := some "2020-01-01" } : TrechoData).ind_ip =
      (ilumVals [DataOp.pav "S" "" "2020-01-01", DataOp.pav "N" "" "2019-05-05",
        DataOp.ilum "S", DataOp.ilum ""]).getLast? ∧
    ({ ind_ip := some "", ind_pav := some "N", tp_pav := some "",
       data_pav := some "2020-01-01" } : TrechoData).data_pav = some "2020-01-01" := by
  have h := mergeOps_policy
    [DataOp.pav "S" "" "2020-01-01", DataOp.pav "N" "" "2019-05-05",
      DataOp.ilum "S", DataOp.ilum ""]
    { ind_ip := some "", ind_pav := some "N", tp_pav := some "",
      data_pav := some "2020-01-01" }
    (by decide)
  exact ⟨h.1 "N" (by decide), h.2.1, h.2.2 "2020-01-01" (by decide)⟩

/-! ## C8: geometry retention. -/

theorem mergeGeoms_append (parses : List (Option String)) (g : Option String) :
    mergeGeoms (parses ++ [g]) =
      match g with
      | none => mergeGeoms parses
      | some geojson => some geojson := by
  unfold mergeGeoms
  rw [List.foldl_append]
  cases g <;> rfl

/-- C8 — counterexample.  Two rows for the same segment id carrying the
distinct parsable geometries G1 and G2: the claim says the first
retained geometry stays (G1 is stored, G2 ignored); the upsert
`ON CONFLICT DO UPDATE SET geojson=excluded.geojson` stores G2. -/
theorem mergeGeoms_last_wins_counterexample :
    mergeGeoms [some "G1", some "G2"] = some "G2" ∧
    (some "G2" : Option String) ≠ some "G1" := by
  exact ⟨rfl, by decide⟩

/-- C8 (amended) — the stored geometry is the LAST successful parse
among the contributing rows: a row with a blank or unparsable geometry
never overwrites the stored one (appending such a row leaves the result
unchanged), but a later parsable geometry replaces it. -/
theorem mergeGeoms_retention (parses : List (Option String)) :
    mergeGeoms parses = (parses.filterMap id).getLast? ∧
    mergeGeoms (parses ++ [none]) = mergeGeoms parses := by
  constructor
  · induction parses using List.reverseRecOn with
    | nil => rfl
    | append_singleton l g ih =>
      rw [mergeGeoms_append]
      cases g with
      | none => simp [ih]
      | some geojson => simp [List.getLast?_concat]
  · rw [mergeGeoms_append]

/-! ## C10: CEP sanitisation and the HTTP handler guard
(src/index.js lines 29-32 and 285-292). -/

/-- JS `.replace(/\\D/g, "")`: keep only the ASCII digits 0-9. -/
def stripNonDigits (s : String) : String := ⟨s.data.filter Char.isDigit⟩

/-- Function `sanitizeCep` from src/index.js lines 29-32: strip the non-digits of
`String(raw || "")`; return the digit string exactly when 8 digits
remain, else `null`. -/
def sanitizeCep (raw : Option String) : Option String :=
  let digits := stripNonDigits (jsToStr raw)
  if digits.length = 8 then some digits else none

/-- What the `/infra` handler does with the `cep` query parameter
(src/index.js lines 285-292): an invalid CEP gets the 400
`CEP_INVALIDO` response and the handler returns — the external ViaCEP
and geocoding calls happen only on the `proceed` path, after this
guard. -/
inductive CepStep
  | badRequest (status : Nat) (httpError : String)
  | proceed (cep : String)
deriving DecidableEq

/-- Lines 286-290: `sanitizeCep`, then `if (!cep)` → 400 CEP_INVALIDO,
else continue with the sanitised value. -/
def handleCepParam (rawCep : Option String) : CepStep :=
  match sanitizeCep rawCep with
  | none => .badRequest 400 "CEP_INVALIDO"
  | some cep => .proceed cep

/-- C10 — CEP sanitisation accepts exactly the inputs in which 8 digits
remain after stripping non-digits (so "30140-071" is accepted as
"30140071"), returns `null` on everything else including null/undefined,
and the handler responds 400 `CEP_INVALIDO` exactly on the `null`
outcomes, before any external call. -/
theorem sanitizeCep_spec (raw : Option String) :
    (sanitizeCep raw = some (stripNonDigits (jsToStr raw)) ↔
      (stripNonDigits (jsToStr raw)).length = 8) ∧
    (sanitizeCep raw = none ↔ (stripNonDigits (jsToStr raw)).length ≠ 8) ∧
    sanitizeCep none = none ∧
    (∀ cep, sanitizeCep raw = some cep → handleCepParam raw = .proceed cep) ∧
    (sanitizeCep raw = none → handleCepParam raw = .badRequest 400 "CEP_INVALIDO") := by
  refine ⟨?_, ?_, rfl, ?_, ?_⟩
  · unfold sanitizeCep
    dsimp only
    split_ifs with h
    · simp [h]
    · simp [h]
  · unfold sanitizeCep
    dsimp only
    split_ifs with h
    · simp [h]
    · simp [h]
  · intro cep hc
    unfold handleCepParam
    rw [hc]
  · intro hc
    unfold handleCepParam
    rw [hc]

/-- C10 — witness: the formatted CEP "30140-071" proceeds as "30140071";
a short input and a null input get the 400 CEP_INVALIDO response. -/
theorem sanitizeCep_spec_witness :
    handleCepParam (some "30140-071") = .proceed "30140071" ∧
    handleCepParam (some "3014") = .badRequest 400 "CEP_INVALIDO" ∧
    handleCepParam none = .badRequest 400 "CEP_INVALIDO" :=
  ⟨(sanitizeCep_spec (some "30140-071")).2.2.2.1 "30140071" (by decide),
    (sanitizeCep_spec (some "3014")).2.2.2.2 (by decide),
    (sanitizeCep_spec none).2.2.2.2 (by decide)⟩

/-! ## The sqlite server's nearest scan (unnamed server source lines
585-611): the variant with the `Number.isFinite` guard. -/

/-- A row of the `infra_features` query (geojson plus the selected
indicator columns); `none` for a NULL `geojson` or a `JSON.parse`
failure — both make the loop `continue`. -/
structure DbRow where
  geojson : Option Geometry
  indicator : String
  tp_pav : Option String := none
  dataCol : Option String := none
deriving DecidableEq

/-- The loop body of `analyzeNearestByIndicator`: skip rows without a
parsed geometry and rows with a non-finite distance; otherwise keep the
row exactly when its distance is strictly below the best so far. -/
def nearestStep (pt : Coord) (b : WithTop ℚ × Option DbRow) (row : DbRow) :
    WithTop ℚ × Option DbRow :=
  match row.geojson with
  | none => b
  | some geom =>
    let d := computeGeometryMinDistance pt (some geom)
    if d = ⊤ then b
    else if d < b.1 then (d, some row) else b

/-- `analyzeNearestByIndicator` from the sqlite server source lines
585-611: `bestDist` starts at `Infinity`, `bestRow` at `null`. -/
def analyzeNearestByIndicator (pt : Coord) (rows : List DbRow) :
    WithTop ℚ × Option DbRow :=
  rows.foldl (nearestStep pt) (⊤, none)

theorem nearestStep_fst_le (pt : Coord) (b : WithTop ℚ × Option DbRow) (row : DbRow) :
    (nearestStep pt b row).1 ≤ b.1 := by
  unfold nearestStep
  cases hrow : row.geojson with
  | none => exact le_refl _
  | some geom =>
    dsimp only
    split_ifs with h1 h2
    · exact le_refl _
    · exact le_of_lt h2
    · exact le_refl _

theorem foldl_nearestStep_spec (pt : Coord) (rows : List DbRow) :
    ∀ b : WithTop ℚ × Option DbRow,
      (rows.foldl (nearestStep pt) b).1 ≤ b.1 ∧
      (∀ r ∈ rows, ∀ g, r.geojson = some g →
        (rows.foldl (nearestStep pt) b).1 ≤ computeGeometryMinDistance pt (some g)) ∧
      (∀ r, (rows.foldl (nearestStep pt) b).2 = some r → r ∈ rows ∨ b.2 = some r) := by
  induction rows with
  | nil =>
    intro b
    exact ⟨le_refl _, by simp, fun r h => Or.inr h⟩
  | cons x xs ih =>
    intro b
    simp only [List.foldl_cons]
    refine ⟨le_trans (ih (nearestStep pt b x)).1 (nearestStep_fst_le pt b x), ?_, ?_⟩
    · intro r hr g hg
      rcases List.mem_cons.mp hr with rfl | hr2
      · by_cases hd : computeGeometryMinDistance pt (some g) = ⊤
        · rw [hd]
          exact le_top
        · have hstep : nearestStep pt b r =
              (if computeGeometryMinDistance pt (some g) < b.1 then
                (computeGeometryMinDistance pt (some g), some r) else b) := by
            unfold nearestStep
            rw [hg]
            dsimp only
            rw [if_neg hd]
          by_cases hlt : computeGeometryMinDistance pt (some g) < b.1
          · rw [hstep, if_pos hlt]
            exact (ih (computeGeometryMinDistance pt (some g), some r)).1
          · rw [hstep, if_neg hlt]
            exact le_trans (ih b).1 (le_of_not_lt hlt)
      · exact (ih (nearestStep pt b x)).2.1 r hr2 g hg
    · intro r hres
      rcases (ih (nearestStep pt b x)).2.2 r hres with hmem | hstep
      · exact Or.inl (List.mem_cons_of_mem _ hmem)
      · unfold nearestStep at hstep
        cases hx : x.geojson with
        | none =>
          rw [hx] at hstep
          exact Or.inr hstep
        | some geom =>
          rw [hx] at hstep
          dsimp only at hstep
          split_ifs at hstep with h1 h2
          · exact Or.inr hstep
          · cases hstep
            exact Or.inl (List.mem_cons_self x xs)
          · exact Or.inr hstep

/-- Supporting result for the nearest-feature property: in the sqlite
server's scan, the returned best distance is a lower bound of every
candidate's computed distance (so a returned row has the global minimum
distance among candidates), and the returned row is one of the scanned
rows; the `Number.isFinite` guard makes this variant immune to the
`Infinity`/object confusion of the index.js scan. -/
theorem analyzeNearestByIndicator_global_min (pt : Coord) (rows : List DbRow) :
    (∀ r ∈ rows, ∀ g, r.geojson = some g →
      (analyzeNearestByIndicator pt rows).1 ≤ computeGeometryMinDistance pt (some g)) ∧
    (∀ r, (analyzeNearestByIndicator pt rows).2 = some r → r ∈ rows) := by
  obtain ⟨-, h2, h3⟩ := foldl_nearestStep_spec pt rows (⊤, none)
  refine ⟨h2, fun r hr => ?_⟩
  rcases h3 r hr with hmem | hnone
  · exact hmem
  · simp at hnone

end BhInfra
